import Mathlib

/-!
Shallow embedding of the loyalty-api Rocket/diesel service (src/src/main.rs).

The persistence backend (SQLite via diesel) is modelled as in-memory lists of
rows; each database round trip takes an explicit `Option DieselError` fault
oracle (`none` = the query succeeds on the store, `some e` = diesel surfaces
the error `e`), mirroring the `Result` values the handlers receive.
-/

instance exceptDecEq {ε α : Type} [DecidableEq ε] [DecidableEq α] :
    DecidableEq (Except ε α) := fun x y =>
  match x, y with
  | .ok a, .ok b =>
    if h : a = b then .isTrue (by simp [h]) else .isFalse (by simp [h])
  | .error a, .error b =>
    if h : a = b then .isTrue (by simp [h]) else .isFalse (by simp [h])
  | .ok _, .error _ => .isFalse (by simp)
  | .error _, .ok _ => .isFalse (by simp)

namespace LoyaltyApi

/-- Database row `db::models::User` (table `users`): id, email, name, pass. -/
structure User where
  id : Int
  email : String
  name : String
  pass : String
deriving DecidableEq

/-- Database row `db::models::Loyalty` (table `cards`):
id, name, optional color, code, owning user id. -/
structure Loyalty where
  id : Int
  name : String
  color : Option String
  code : String
  user_id : Int
deriving DecidableEq

/-- Request body `requests::AddLoyalty` as used by `add_loyalty`. -/
structure AddLoyalty where
  name : String
  color : Option String
  code : String
deriving DecidableEq

/-- Response body `requests::AddLoyaltyResponse` as built in `add_loyalty`
and `get_loyalties`: the id is serialized with `to_string()`. -/
structure AddLoyaltyResponse where
  id : String
  name : String
  color : Option String
  code : String
deriving DecidableEq

/-- Kinds of `diesel::result::DatabaseErrorKind` (diesel 1.x). -/
inductive DatabaseErrorKind where
  | UniqueViolation
  | ForeignKeyViolation
  | UnableToSendCommand
  | SerializationFailure
  | Unknown
deriving DecidableEq

/-- Variants of `diesel::result::Error`; `DatabaseError` carries its kind and
the backend's message text. -/
inductive DieselError where
  | DatabaseError (kind : DatabaseErrorKind) (message : String)
  | NotFound
  | QueryBuilderError
  | DeserializationError
  | SerializationError
  | RollbackTransaction
  | AlreadyInTransaction
deriving DecidableEq

/-- Error kinds of `std::num::ParseIntError` relevant to `str::parse`. -/
inductive ParseIntError where
  | Empty
  | InvalidDigit
  | PosOverflow
  | NegOverflow
deriving DecidableEq

/-- Opaque payload of `validator::ValidationErrors`. -/
inductive ValidationErrors where
  | mk
deriving DecidableEq

/-- The `APIError` enum of main.rs. -/
inductive APIError where
  | SignError (e : ValidationErrors)
  | DieselError (e : DieselError)
  | NotAuthorized
  | ParsingError (e : ParseIntError)
deriving DecidableEq

/-- Numeric value of the digit list, most significant first. -/
def digitsVal (ds : List Char) : Nat :=
  ds.foldl (fun a c => a * 10 + (c.toNat - 48)) 0

/-- Rust's `str::parse` for a signed integer type with range `[lo, hi]`:
an optional leading `+` or `-`, then at least one ASCII digit and nothing
else; out-of-range values are overflow errors. -/
def parseIntRange (lo hi : Int) (s : String) : Except ParseIntError Int :=
  match s.data with
  | [] => .error .Empty
  | c :: rest =>
    let neg : Bool := c = '-'
    let ds : List Char := if c = '-' ∨ c = '+' then rest else c :: rest
    if ds.isEmpty then .error .InvalidDigit
    else if ds.all (fun d => d.isDigit) then
      let v : Int := if neg then -(digitsVal ds : Int) else (digitsVal ds : Int)
      if v < lo then .error .NegOverflow
      else if hi < v then .error .PosOverflow
      else .ok v
    else .error .InvalidDigit

def i32min : Int := -2147483648
def i32max : Int := 2147483647
def i64min : Int := -9223372036854775808
def i64max : Int := 9223372036854775807

/-- `str::parse::<i32>().ok()`. -/
def parseI32 (s : String) : Option Int :=
  (parseIntRange i32min i32max s).toOption

/-- `str::parse::<i64>().ok()`. -/
def parseI64 (s : String) : Option Int :=
  (parseIntRange i64min i64max s).toOption

/-- Modelled from the spec: the result of looking a cookie up in Rocket's
private (signed-and-encrypted) jar, which is framework code absent from src/.
A stored cookie either verifies, yielding the payload it encodes, or fails
verification (any tampered byte invalidates the MAC), yielding nothing. -/
inductive CookieVal where
  | tampered
  | signed (payload : String)
deriving DecidableEq

/-- The request's cookie jar: association list from cookie names to
verification outcomes. -/
def CookieJar : Type := List (String × CookieVal)

/-- Modelled from the spec: `CookieJar::get_private(name)` returns the decoded
payload only when a cookie with that name is present and verifies. -/
def get_private (jar : CookieJar) (n : String) : Option String :=
  match List.lookup n jar with
  | some (.signed p) => some p
  | _ => none

/-- Rocket's `request::Outcome` as produced by `FromRequest` (the `Forward`
variant is never produced by this implementation). -/
inductive Outcome (α ε : Type) where
  | Success (a : α)
  | Failure (status : Nat) (e : ε)
  | Forward
deriving DecidableEq

/-- `User::from_request`: read the private cookie named "user_id", parse its
payload as an i32 principal, otherwise fail with 403 / NotAuthorized. -/
def from_request (jar : CookieJar) : Outcome Int APIError :=
  match (get_private jar "user_id").bind parseI32 with
  | some uid => .Success uid
  | none => .Failure 403 .NotAuthorized

/-- Rocket's dispatch of a protected route: the handler body runs only when
`from_request` succeeds; on `Failure` the request is answered from the outcome
status without invoking the handler. -/
def dispatch_protected {α : Type} (jar : CookieJar) (handler : Int → α) :
    Except (Nat × APIError) α :=
  match from_request jar with
  | .Success uid => .ok (handler uid)
  | .Failure s e => .error (s, e)
  | .Forward => .error (404, .NotAuthorized)

/-- The `Responder` impl `APIError::respond_to`, reduced to the status code it
chooses (the response body is empty for every variant). -/
def respond_to : APIError → Nat
  | .SignError _ => 400
  | .DieselError e =>
    match e with
    | .DatabaseError kind _ =>
      match kind with
      | .UniqueViolation => 400
      | _ => 500
    | _ => 500
  | .ParsingError _ => 400
  | .NotAuthorized => 500

/-- Result shaped by `status::Custom<&'static str>` plus the private cookie
written by the handler, if any. -/
structure SigninOut where
  status : Nat
  body : String
  setCookie : Option String
deriving DecidableEq

/-- The `signin` handler: load at most one user matching email and pass
exactly; zero rows gives 403 "invalid credentials" with no cookie, otherwise
the session cookie is set to the fetched user's id and 200 "connected" is
returned. A diesel failure propagates through `?` as `APIError`. -/
def signin (users : List User) (err : Option DieselError) (e p : String) :
    Except APIError SigninOut :=
  match err with
  | some de => .error (.DieselError de)
  | none =>
    let fetched := (users.filter (fun u => u.email == e && u.pass == p)).take 1
    match fetched with
    | [] => .ok ⟨403, "invalid credentials", none⟩
    | u :: _ => .ok ⟨200, "connected", some (toString u.id)⟩

/-- The `get_user` handler (`GET /userinfo`): load at most one user whose id
equals the principal's; a failed load or an empty result both return `none`
(no content), a row returns the full record. -/
def get_user (users : List User) (err : Option DieselError) (uid : Int) :
    Option User :=
  let fetched : Except DieselError (List User) :=
    match err with
    | some e => .error e
    | none => .ok ((users.filter (fun u => u.id == uid)).take 1)
  match fetched with
  | .error _ => none
  | .ok [] => none
  | .ok (u :: _) => some u

/-- Largest card id in the table (0 when empty). -/
def maxId (cs : List Loyalty) : Int :=
  cs.foldr (fun c m => max c.id m) 0

/-- Modelled from the spec: the id the Credential Store assigns to an inserted
card. The schema (db module) is absent from src/; the spec requires a "newly
assigned, previously-unseen id", which SQLite realizes by picking one greater
than the current maximum rowid. -/
def nextId (cs : List Loyalty) : Int :=
  maxId cs + 1

/-- The row `ORDER BY id DESC LIMIT 1` returns: a row of maximal id. -/
def topByIdDesc : List Loyalty → Option Loyalty
  | [] => none
  | c :: cs =>
    match topByIdDesc cs with
    | none => some c
    | some m => if c.id < m.id then some m else some c

/-- The result list of `cards.order(id.desc()).limit(1).load`. -/
def orderByIdDescLimit1 (cs : List Loyalty) : List Loyalty :=
  match topByIdDesc cs with
  | none => []
  | some c => [c]

/-- Outcome of a handler returning `Option<Json<_>>` whose body can panic. -/
inductive HandlerOut (α : Type) where
  | ok (a : α)
  | notFound
  | panicked
deriving DecidableEq

/-- Shape a card row into an `AddLoyaltyResponse`. -/
def mkResp (c : Loyalty) : AddLoyaltyResponse :=
  ⟨toString c.id, c.name, c.color, c.code⟩

/-- The `add_loyalty` handler (`PUT /loyalties`): insert a card owned by the
principal, then re-read the table ordered by id descending with limit 1 and
build the response from `remove(0)` of that result. `errInsert` and `errRead`
are the fault oracles of the two diesel calls; either failure turns into
`None` via `.ok()?`, and `remove(0)` on an empty result panics. Returns the
response together with the resulting table. -/
def add_loyalty (cards : List Loyalty) (errInsert errRead : Option DieselError)
    (uid : Int) (body : AddLoyalty) : HandlerOut (AddLoyaltyResponse × List Loyalty) :=
  match errInsert with
  | some _ => .notFound
  | none =>
    let newRow : Loyalty := ⟨nextId cards, body.name, body.color, body.code, uid⟩
    let cards' := cards ++ [newRow]
    match errRead with
    | some _ => .notFound
    | none =>
      match orderByIdDescLimit1 cards' with
      | [] => .panicked
      | last :: _ => .ok (mkResp last, cards')

/-- SQL OFFSET: a negative offset behaves as 0. -/
def applyOffset (off : Int) (l : List Loyalty) : List Loyalty :=
  l.drop off.toNat

/-- SQL LIMIT: a negative limit means no limit. -/
def applyLimit (lim : Int) (l : List Loyalty) : List Loyalty :=
  if lim < 0 then l else l.take lim.toNat

/-- The rows `cards.filter(user_id.eq(uid)).limit(lim).offset(off).load`
returns. -/
def loyaltiesQuery (cards : List Loyalty) (uid lim off : Int) : List Loyalty :=
  applyLimit lim (applyOffset off (cards.filter (fun c => c.user_id == uid)))

/-- The `get_loyalties` handler (`GET /loyalties?limit&offset`): parse the
optional limit and offset strings as i64, silently defaulting to 10 and 0,
then load the principal's cards; a diesel failure becomes `None` via
`.ok()?`. -/
def get_loyalties (cards : List Loyalty) (err : Option DieselError) (uid : Int)
    (limit offset : Option String) : Option (List AddLoyaltyResponse) :=
  let lim := (limit.bind parseI64).getD 10
  let off := (offset.bind parseI64).getD 0
  match err with
  | some _ => none
  | none => some ((loyaltiesQuery cards uid lim off).map mkResp)

/-- The `delete_loyalty` handler (`DELETE /loyalties/<loyalty_id>`): parse the
path segment as an i32 (a parse failure becomes `APIError::ParsingError`),
delete every row whose id equals it, and answer 200 "loyalty deleted".
Returns the status, body and resulting table. -/
def delete_loyalty (cards : List Loyalty) (err : Option DieselError)
    (lid : String) : Except APIError (Nat × String × List Loyalty) :=
  match parseIntRange i32min i32max lid with
  | .error e => .error (.ParsingError e)
  | .ok i =>
    match err with
    | some de => .error (.DieselError de)
    | none => .ok (200, "loyalty deleted", cards.filter (fun c => c.id != i))

/-- The delete route at request level: its argument list has no `User` guard,
so the cookie jar of the request is never consulted. -/
def handle_delete (jar : CookieJar) (cards : List Loyalty)
    (err : Option DieselError) (lid : String) :
    Except APIError (Nat × String × List Loyalty) :=
  let _ := jar
  delete_loyalty cards err lid

theorem maxId_cons (d : Loyalty) (ds : List Loyalty) :
    maxId (d :: ds) = max d.id (maxId ds) := rfl

theorem mem_le_maxId {c : Loyalty} {cs : List Loyalty} (h : c ∈ cs) :
    c.id ≤ maxId cs := by
  induction cs with
  | nil => cases h
  | cons d ds ih =>
    rw [maxId_cons]
    rcases List.mem_cons.mp h with rfl | hm
    · exact le_max_left _ _
    · exact le_trans (ih hm) (le_max_right _ _)

theorem topByIdDesc_append_last {cs : List Loyalty} {n : Loyalty}
    (h : ∀ c ∈ cs, c.id < n.id) : topByIdDesc (cs ++ [n]) = some n := by
  induction cs with
  | nil => rfl
  | cons d ds ih =>
    have hd := h d (List.mem_cons_self _ _)
    have ih' := ih (fun c hc => h c (List.mem_cons_of_mem _ hc))
    show topByIdDesc (d :: (ds ++ [n])) = some n
    simp [topByIdDesc, ih', hd]

theorem topByIdDesc_ne_none {cs : List Loyalty} (h : cs ≠ []) :
    topByIdDesc cs ≠ none := by
  cases cs with
  | nil => exact absurd rfl h
  | cons d ds =>
    rw [topByIdDesc]
    cases topByIdDesc ds with
    | none => simp
    | some m =>
      show (if d.id < m.id then some m else some d) ≠ none
      split <;> simp

/-- C1: every protected-route request whose cookie jar lacks a session cookie
named "user_id", or whose session cookie fails verification, or whose payload
does not parse as an integer, is rejected with status 403 before the handler
body runs (the dispatch result is independent of the handler), and a principal
is only ever yielded from the payload of a validly verified cookie. -/
theorem from_request_auth_gate (jar : CookieJar) :
    (List.lookup "user_id" jar = none →
      from_request jar = .Failure 403 .NotAuthorized)
  ∧ (List.lookup "user_id" jar = some .tampered →
      from_request jar = .Failure 403 .NotAuthorized)
  ∧ (∀ p, List.lookup "user_id" jar = some (.signed p) → parseI32 p = none →
      from_request jar = .Failure 403 .NotAuthorized)
  ∧ (∀ uid, from_request jar = .Success uid →
      ∃ p, List.lookup "user_id" jar = some (.signed p) ∧ parseI32 p = some uid)
  ∧ (from_request jar = .Failure 403 .NotAuthorized →
      ∀ (f g : Int → Nat), dispatch_protected jar f = dispatch_protected jar g ∧
        dispatch_protected jar f = .error (403, .NotAuthorized)) := by
  refine ⟨?_, ?_, ?_, ?_, ?_⟩
  · intro h; simp [from_request, get_private, h]
  · intro h; simp [from_request, get_private, h]
  · intro p h hp; simp [from_request, get_private, h, hp]
  · intro uid h
    unfold from_request at h
    cases ho : (get_private jar "user_id").bind parseI32 with
    | none => rw [ho] at h; exact Outcome.noConfusion h
    | some v =>
      rw [ho] at h
      have hv : v = uid := by injection h
      rcases Option.bind_eq_some.mp ho with ⟨p, hp1, hp2⟩
      refine ⟨p, ?_, by rw [hp2, hv]⟩
      unfold get_private at hp1
      cases hl : List.lookup "user_id" jar with
      | none => rw [hl] at hp1; cases hp1
      | some cv =>
        cases cv with
        | tampered => rw [hl] at hp1; cases hp1
        | signed q =>
          rw [hl] at hp1
          have hq : q = p := by simpa using hp1
          rw [hq]
  · intro h f g
    constructor <;> simp [dispatch_protected, h]

/-- C1 witness: a jar holding a tampered "user_id" cookie is rejected with
403, and the dispatch never runs the handler. -/
theorem from_request_auth_gate_witness :
    from_request [("user_id", CookieVal.tampered)] =
      .Failure 403 .NotAuthorized :=
  (from_request_auth_gate [("user_id", CookieVal.tampered)]).2.1 rfl

/-- C2: the classifier maps a persistence error whose kind is a unique-key
violation to 400, every other persistence error to 500, and its verdict on a
database error depends only on the kind, never on the message text. -/
theorem respond_to_persistence :
    (∀ m, respond_to (.DieselError (.DatabaseError .UniqueViolation m)) = 400)
  ∧ (∀ e : DieselError, (∀ k m, e = .DatabaseError k m → k ≠ .UniqueViolation) →
      respond_to (.DieselError e) = 500)
  ∧ (∀ k m₁ m₂, respond_to (.DieselError (.DatabaseError k m₁)) =
      respond_to (.DieselError (.DatabaseError k m₂))) := by
  refine ⟨fun m => rfl, ?_, ?_⟩
  · intro e he
    cases e with
    | DatabaseError k m =>
      cases k with
      | UniqueViolation => exact absurd rfl (he _ m rfl)
      | ForeignKeyViolation => rfl
      | UnableToSendCommand => rfl
      | SerializationFailure => rfl
      | Unknown => rfl
    | NotFound => rfl
    | QueryBuilderError => rfl
    | DeserializationError => rfl
    | SerializationError => rfl
    | RollbackTransaction => rfl
    | AlreadyInTransaction => rfl
  · intro k m₁ m₂; cases k <;> rfl

/-- C2 witness: a duplicate-key database error yields 400, a NotFound
persistence error yields 500. -/
theorem respond_to_persistence_witness :
    respond_to (.DieselError (.DatabaseError .UniqueViolation "dup")) = 400
  ∧ respond_to (.DieselError .NotFound) = 500 :=
  ⟨respond_to_persistence.1 "dup",
   respond_to_persistence.2.1 .NotFound
     (fun _ _ h => DieselError.noConfusion h)⟩

/-- C3: delete-card consults neither the cookie jar (its result is the same
for every jar) nor ownership: for any integer id it removes exactly the rows
whose id matches, whichever user owns them. -/
theorem delete_no_auth_no_ownership (jar jar' : CookieJar)
    (cards : List Loyalty) (s : String) (i : Int)
    (h : parseIntRange i32min i32max s = .ok i) :
    handle_delete jar cards none s = handle_delete jar' cards none s
  ∧ handle_delete jar cards none s =
      .ok (200, "loyalty deleted", cards.filter (fun c => c.id != i))
  ∧ ∀ c ∈ cards, c.id = i → c ∉ cards.filter (fun c => c.id != i) := by
  refine ⟨rfl, ?_, ?_⟩
  · simp [handle_delete, delete_loyalty, h]
  · intro c _ hci hmem
    have := (List.mem_filter.mp hmem).2
    simp [hci] at this

/-- C3 witness: with any cookie state, deleting id 5 removes the card with
id 5 owned by user 9. -/
theorem delete_no_auth_no_ownership_witness :
    handle_delete [("user_id", CookieVal.signed "1")]
        [⟨5, "x", none, "c", 9⟩] none "5" =
      handle_delete [] [⟨5, "x", none, "c", 9⟩] none "5"
  ∧ handle_delete [("user_id", CookieVal.signed "1")]
        [⟨5, "x", none, "c", 9⟩] none "5" =
      .ok (200, "loyalty deleted",
        List.filter (fun c => c.id != 5) [⟨5, "x", none, "c", 9⟩]) :=
  ⟨(delete_no_auth_no_ownership [("user_id", CookieVal.signed "1")] []
      [⟨5, "x", none, "c", 9⟩] "5" 5 (by decide)).1,
   (delete_no_auth_no_ownership [("user_id", CookieVal.signed "1")] []
      [⟨5, "x", none, "c", 9⟩] "5" 5 (by decide)).2.1⟩

/-- C4: signin answers 200 "connected" and sets the session cookie to a
matching user's id exactly when a user with that email and pass exists;
otherwise it answers 403 "invalid credentials" and sets no cookie. -/
theorem signin_iff (users : List User) (e p : String) :
    ((∃ u ∈ users, u.email = e ∧ u.pass = p) →
      ∃ u ∈ users, u.email = e ∧ u.pass = p ∧
        signin users none e p = .ok ⟨200, "connected", some (toString u.id)⟩)
  ∧ ((∀ u ∈ users, ¬(u.email = e ∧ u.pass = p)) →
      signin users none e p = .ok ⟨403, "invalid credentials", none⟩) := by
  constructor
  · rintro ⟨u, hu, he, hp⟩
    cases hf : users.filter (fun v => v.email == e && v.pass == p) with
    | nil =>
      have : u ∈ users.filter (fun v => v.email == e && v.pass == p) :=
        List.mem_filter.mpr ⟨hu, by simp [he, hp]⟩
      rw [hf] at this; cases this
    | cons v t =>
      have hv : v ∈ users.filter (fun w => w.email == e && w.pass == p) := by
        rw [hf]; exact List.mem_cons_self _ _
      have hv' := List.mem_filter.mp hv
      have hve : v.email = e ∧ v.pass = p := by
        have := hv'.2; simp at this; exact this
      refine ⟨v, hv'.1, hve.1, hve.2, ?_⟩
      simp [signin, hf]
  · intro hnone
    have hf : users.filter (fun v => v.email == e && v.pass == p) = [] := by
      rw [List.filter_eq_nil_iff]
      intro v hv hvp
      simp at hvp
      exact hnone v hv hvp
    simp [signin, hf]

/-- C4 witness: with the single stored user, matching credentials connect and
set the cookie to that user's id; a wrong password yields 403 with no
cookie. -/
theorem signin_iff_witness :
    (∃ u ∈ [User.mk 1 "a@x.com" "A" "p"], u.email = "a@x.com" ∧ u.pass = "p" ∧
      signin [User.mk 1 "a@x.com" "A" "p"] none "a@x.com" "p" =
        .ok ⟨200, "connected", some (toString u.id)⟩)
  ∧ signin [User.mk 1 "a@x.com" "A" "p"] none "a@x.com" "q" =
      .ok ⟨403, "invalid credentials", none⟩ := by
  constructor
  · rcases (signin_iff [User.mk 1 "a@x.com" "A" "p"] "a@x.com" "p").1
      (by refine ⟨_, List.mem_singleton_self _, rfl, rfl⟩) with ⟨u, hu, h1, h2, h3⟩
    exact ⟨u, hu, h1, h2, h3⟩
  · exact (signin_iff [User.mk 1 "a@x.com" "A" "p"] "a@x.com" "q").2
      (by intro u hu; rcases List.mem_singleton.mp hu with rfl; simp)

/-- C5: after a successful insert, create-card re-reads the newest row of the
cards table (ordered by id descending, limit 1) and answers with exactly the
submitted name, color and code together with the newly assigned id, an id no
existing card carries. -/
theorem add_loyalty_readback (cards : List Loyalty) (uid : Int)
    (body : AddLoyalty) :
    add_loyalty cards none none uid body =
      .ok (⟨toString (nextId cards), body.name, body.color, body.code⟩,
           cards ++ [⟨nextId cards, body.name, body.color, body.code, uid⟩])
  ∧ ∀ c ∈ cards, c.id ≠ nextId cards := by
  have hlt : ∀ c ∈ cards, c.id <
      (Loyalty.mk (nextId cards) body.name body.color body.code uid).id := by
    intro c hc
    exact lt_of_le_of_lt (mem_le_maxId hc) (by simp [nextId])
  constructor
  · have htop := topByIdDesc_append_last hlt
    simp [add_loyalty, orderByIdDescLimit1, htop, mkResp]
  · intro c hc
    have := hlt c hc
    simp [nextId] at this ⊢
    omega

/-- C5 witness: inserting into a table holding one card with id 3 echoes the
body back under the fresh id 4. -/
theorem add_loyalty_readback_witness :
    add_loyalty [⟨3, "x", none, "c", 2⟩] none none 1 ⟨"Store", some "red", "123"⟩ =
      .ok (⟨"4", "Store", some "red", "123"⟩,
           [⟨3, "x", none, "c", 2⟩, ⟨4, "Store", some "red", "123", 1⟩]) := by
  have h := (add_loyalty_readback [⟨3, "x", none, "c", 2⟩] 1
    ⟨"Store", some "red", "123"⟩).1
  simpa using h

/-- C6: list-cards only ever returns cards whose user_id is the authenticated
principal's id, whatever limit and offset strings arrive. -/
theorem get_loyalties_owner (cards : List Loyalty) (uid : Int)
    (ls os : Option String) :
    ∃ lim off,
      get_loyalties cards none uid ls os =
        some ((loyaltiesQuery cards uid lim off).map mkResp)
    ∧ ∀ c ∈ loyaltiesQuery cards uid lim off, c.user_id = uid := by
  refine ⟨(ls.bind parseI64).getD 10, (os.bind parseI64).getD 0, rfl, ?_⟩
  intro c hc
  unfold loyaltiesQuery applyLimit applyOffset at hc
  have hmem : c ∈ cards.filter (fun d => d.user_id == uid) := by
    by_cases hneg : ((ls.bind parseI64).getD 10 : Int) < 0
    · rw [if_pos hneg] at hc
      exact List.drop_subset _ _ hc
    · rw [if_neg hneg] at hc
      exact List.drop_subset _ _ (List.take_subset _ _ hc)
  have := (List.mem_filter.mp hmem).2
  simpa using this

/-- C6 witness: a store with cards of users 1 and 2 listed for principal 1
returns only user 1's card. -/
theorem get_loyalties_owner_witness :
    ∃ lim off,
      get_loyalties [⟨1, "Store", none, "123", 1⟩, ⟨2, "Y", none, "9", 2⟩]
          none 1 none none =
        some ((loyaltiesQuery
          [⟨1, "Store", none, "123", 1⟩, ⟨2, "Y", none, "9", 2⟩] 1 lim off).map mkResp)
    ∧ ∀ c ∈ loyaltiesQuery
        [⟨1, "Store", none, "123", 1⟩, ⟨2, "Y", none, "9", 2⟩] 1 lim off,
        c.user_id = 1 :=
  get_loyalties_owner [⟨1, "Store", none, "123", 1⟩, ⟨2, "Y", none, "9", 2⟩]
    1 none none

/-- C7: get-self answers nothing both when the lookup fails (whatever the
diesel error) and when the id has no row, with no error surfaced in either
case, and answers the full stored record when the id maps to a (unique)
row. -/
theorem get_user_softfail (users : List User) (uid : Int) :
    (∀ e, get_user users (some e) uid = none)
  ∧ ((∀ u ∈ users, u.id ≠ uid) → get_user users none uid = none)
  ∧ (∀ u ∈ users, u.id = uid → (∀ v ∈ users, v.id = uid → v = u) →
      get_user users none uid = some u) := by
  refine ⟨fun e => rfl, ?_, ?_⟩
  · intro hnone
    have hf : users.filter (fun u => u.id == uid) = [] := by
      rw [List.filter_eq_nil_iff]
      intro u hu hup
      simp at hup
      exact hnone u hu hup
    simp [get_user, hf]
  · intro u hu huid huniq
    cases hf : users.filter (fun v => v.id == uid) with
    | nil =>
      have : u ∈ users.filter (fun v => v.id == uid) :=
        List.mem_filter.mpr ⟨hu, by simp [huid]⟩
      rw [hf] at this; cases this
    | cons v t =>
      have hv : v ∈ users.filter (fun w => w.id == uid) := by
        rw [hf]; exact List.mem_cons_self _ _
      have hv' := List.mem_filter.mp hv
      have hvu : v = u := by
        apply huniq v hv'.1
        have := hv'.2; simpa using this
      simp [get_user, hf, hvu]

/-- C7 witness: with one stored user of id 1, a failed lookup yields nothing,
principal 2 yields nothing, and principal 1 receives the full record. -/
theorem get_user_softfail_witness :
    get_user [User.mk 1 "a@x.com" "A" "p"] (some .NotFound) 1 = none
  ∧ get_user [User.mk 1 "a@x.com" "A" "p"] none 2 = none
  ∧ get_user [User.mk 1 "a@x.com" "A" "p"] none 1 =
      some (User.mk 1 "a@x.com" "A" "p") :=
  ⟨(get_user_softfail [User.mk 1 "a@x.com" "A" "p"] 1).1 .NotFound,
   (get_user_softfail [User.mk 1 "a@x.com" "A" "p"] 2).2.1 (by decide),
   (get_user_softfail [User.mk 1 "a@x.com" "A" "p"] 1).2.2
     (User.mk 1 "a@x.com" "A" "p") (List.mem_singleton_self _) rfl
     (by intro v hv _; simpa using List.mem_singleton.mp hv)⟩

/-- C8: delete-card with an unparsable path segment fails with the parse
error, which the classifier maps to 400; with an integer id matching no row
it still answers 200 "loyalty deleted" and leaves the table unchanged. -/
theorem delete_parse_and_noop (cards : List Loyalty) (lid : String) (i : Int) :
    (∀ err e, parseIntRange i32min i32max lid = .error e →
      delete_loyalty cards err lid = .error (.ParsingError e) ∧
        respond_to (.ParsingError e) = 400)
  ∧ (parseIntRange i32min i32max lid = .ok i → (∀ c ∈ cards, c.id ≠ i) →
      delete_loyalty cards none lid = .ok (200, "loyalty deleted", cards)) := by
  constructor
  · intro err e he
    exact ⟨by simp [delete_loyalty, he], rfl⟩
  · intro hok hno
    have hf : cards.filter (fun c => c.id != i) = cards := by
      rw [List.filter_eq_self]
      intro c hc
      simpa using hno c hc
    simp [delete_loyalty, hok, hf]

/-- C8 witness: deleting "x" from a one-card table fails with InvalidDigit
mapped to 400; deleting id 7, which matches no row, answers 200 "loyalty
deleted" with the table unchanged. -/
theorem delete_parse_and_noop_witness :
    (delete_loyalty [⟨1, "Store", none, "123", 1⟩] none "x" =
        .error (.ParsingError .InvalidDigit)
      ∧ respond_to (.ParsingError .InvalidDigit) = 400)
  ∧ delete_loyalty [⟨1, "Store", none, "123", 1⟩] none "7" =
      .ok (200, "loyalty deleted", [⟨1, "Store", none, "123", 1⟩]) :=
  ⟨(delete_parse_and_noop [⟨1, "Store", none, "123", 1⟩] "x" 0).1
      none .InvalidDigit (by decide),
   (delete_parse_and_noop [⟨1, "Store", none, "123", 1⟩] "7" 7).2
      (by decide) (by decide)⟩

/-- C9: a list-cards request whose limit string does not parse as an integer
behaves exactly as one with the limit omitted (defaulting to 10), and an
unparsable offset behaves exactly as an omitted offset (defaulting to 0); no
error is produced. -/
theorem get_loyalties_default_fallback (cards : List Loyalty)
    (err : Option DieselError) (uid : Int) (s t : String)
    (ls os : Option String) :
    (parseI64 s = none →
      get_loyalties cards err uid (some s) os =
        get_loyalties cards err uid none os)
  ∧ (parseI64 t = none →
      get_loyalties cards err uid ls (some t) =
        get_loyalties cards err uid ls none)
  ∧ (parseI64 s = none → parseI64 t = none →
      get_loyalties cards none uid (some s) (some t) =
        some ((loyaltiesQuery cards uid 10 0).map mkResp)) := by
  refine ⟨?_, ?_, ?_⟩
  · intro hs; simp [get_loyalties, hs]
  · intro ht; simp [get_loyalties, ht]
  · intro hs ht; simp [get_loyalties, hs, ht]

/-- C9 witness: limit "abc" and offset "-?" fall back to limit 10 and
offset 0 on a one-card store. -/
theorem get_loyalties_default_fallback_witness :
    (get_loyalties [⟨1, "Store", none, "123", 1⟩] none 1 (some "abc") none =
      get_loyalties [⟨1, "Store", none, "123", 1⟩] none 1 none none)
  ∧ (get_loyalties [⟨1, "Store", none, "123", 1⟩] none 1 none (some "-?") =
      get_loyalties [⟨1, "Store", none, "123", 1⟩] none 1 none none) :=
  ⟨(get_loyalties_default_fallback [⟨1, "Store", none, "123", 1⟩] none 1
      "abc" "t" none none).1 (by decide),
   (get_loyalties_default_fallback [⟨1, "Store", none, "123", 1⟩] none 1
      "s" "-?" none none).2.1 (by decide)⟩

/-- C10: whenever the insert and the read-back query both succeed, the
read-back result is non-empty, so removing its first element cannot panic;
create-card never reaches the panic outcome. -/
theorem add_loyalty_never_panics (cards : List Loyalty)
    (errInsert errRead : Option DieselError) (uid : Int) (body : AddLoyalty) :
    add_loyalty cards errInsert errRead uid body ≠ .panicked := by
  unfold add_loyalty
  cases errInsert with
  | some e => simp
  | none =>
    cases errRead with
    | some e => simp
    | none =>
      have hne : cards ++ [(⟨nextId cards, body.name, body.color, body.code, uid⟩ : Loyalty)] ≠ [] := by
        simp
      have := topByIdDesc_ne_none hne
      unfold orderByIdDescLimit1
      cases htop : topByIdDesc
          (cards ++ [(⟨nextId cards, body.name, body.color, body.code, uid⟩ : Loyalty)]) with
      | none => exact absurd htop this
      | some c => simp [htop]

/-- C10 witness: a concrete create-card call does not panic. -/
theorem add_loyalty_never_panics_witness :
    add_loyalty [] none none 1 ⟨"a", none, "c"⟩ ≠ HandlerOut.panicked :=
  add_loyalty_never_panics [] none none 1 ⟨"a", none, "c"⟩

end LoyaltyApi
